import Mathlib

set_option maxRecDepth 100000

/-!
Shallow embedding of the SmartClause server core
(`server/routes.ts` and `server/storage.ts`, in-memory storage variant).

Strings that in the source contain an apostrophe are built with `aposS`
(the one-character string U+0027) so every string literal here is
apostrophe-free; the assembled strings are byte-identical to the source.
-/

/-- The apostrophe character (U+0027), used to assemble source strings. -/
def aposS : String := (Char.ofNat 39).toString

/-- Risk levels; they serialize as the strings low / medium / high. -/
inductive RiskLevel where
  | low
  | medium
  | high
deriving DecidableEq, Repr

/-- Numeric rank of a risk level, for worst-of comparisons. -/
def RiskLevel.toNat : RiskLevel → Nat
  | .low => 0
  | .medium => 1
  | .high => 2

/-- Worst-of of two risk levels. -/
def RiskLevel.maxL (a b : RiskLevel) : RiskLevel :=
  if b.toNat ≤ a.toNat then a else b

/-- Worst-of of a list of risk levels, LOW when the list is empty. -/
def maxRisk (l : List RiskLevel) : RiskLevel :=
  l.foldr RiskLevel.maxL .low

/-- Does `needle` occur at the head of `hay`? (char-list matching). -/
def startsWithChars : List Char → List Char → Bool
  | [], _ => true
  | _ :: _, [] => false
  | a :: as, b :: bs => a == b && startsWithChars as bs

/-- Does `needle` occur anywhere in `hay`? Embeds JS `String.includes`. -/
def includesChars (needle : List Char) : List Char → Bool
  | [] => startsWithChars needle []
  | hay@(_ :: rest) => startsWithChars needle hay || includesChars needle rest

/-- Embeds `text.toLowerCase().includes(kw)` from the source. -/
def containsKw (text kw : String) : Bool :=
  includesChars kw.data (text.data.map Char.toLower)

/-- The `fullAnalysis` JSON blob produced by `analyzeContract`. -/
structure FullAnalysis where
  riskLevel : RiskLevel
  riskReason : String
  suggestions : String
deriving DecidableEq, Repr

/-- The value returned by `analyzeContract` in `server/routes.ts`. -/
structure AnalysisResult where
  summary : List String
  riskyClauseIndices : List Nat
  fullAnalysis : FullAnalysis
  riskScore : RiskLevel
deriving DecidableEq, Repr

/-- The fixed summary list from `analyzeContract`. -/
def mockSummary : List String :=
  [ "Contract duration is 12 months with automatic renewal unless terminated with 30 days notice"
  , "Payment terms require invoice payment within 30 days"
  , "Broadly worded indemnification clause places significant burden on your company"
  , "Non-compete clause is excessively broad and may not be enforceable in all jurisdictions"
  , "Confidentiality provisions expire 3 years after termination"
  , "Intellectual property ownership assigns all work product to client without limitation" ]

/-- The `fullAnalysis` blob built inside `analyzeContract`: the computed
risk score plus two fixed strings. -/
def mockFullAnalysis (riskScore : RiskLevel) : FullAnalysis :=
  { riskLevel := riskScore
  , riskReason := "This contract has some concerning clauses that place undue burden on one party"
  , suggestions := "Consider negotiating the indemnification and non-compete clauses" }

/-- Embeds `analyzeContract(text, contractType)` from `server/routes.ts`:
keyword checks on the lowercased text pick the document risk score and
the risky clause indices; the summary and rationale are fixed. -/
def analyzeContract (text : String) (_contractType : String) : AnalysisResult :=
  let hasHighRisk := containsKw text "termination" || containsKw text "compete"
  let hasMediumRisk := containsKw text "payment" || containsKw text "liability"
  let riskScore : RiskLevel :=
    if hasHighRisk then .high else if hasMediumRisk then .medium else .low
  let riskyClauseIndices : List Nat :=
    if hasHighRisk then [0, 3] else if hasMediumRisk then [1] else []
  { summary := mockSummary
  , riskyClauseIndices := riskyClauseIndices
  , fullAnalysis := mockFullAnalysis riskScore
  , riskScore := riskScore }

/-- Canned answer of `answerContractQuestion` for termination questions. -/
def answerTermination : String :=
  "Yes, this contract can be terminated early in several ways. According to Section 8.1, either party may terminate with 30 days written notice. Additionally, Section 8.2 allows for immediate termination if there" ++ aposS ++ "s a material breach that remains uncured for 15 business days after written notification."

/-- Canned answer of `answerContractQuestion` for confidentiality questions. -/
def answerConfidentiality : String :=
  "According to Section 11.3 of the contract, the confidentiality obligations survive for 3 years after termination. During this period, both parties must continue to protect confidential information as defined in the agreement. Upon request, each party must either return or destroy all confidential information in their possession."

/-- Canned answer of `answerContractQuestion` for payment questions. -/
def answerPayment : String :=
  "The payment terms are outlined in Section 5. Client must pay all invoices within 30 days of receipt. Late payments accrue interest at a rate of 1.5% per month. Any disputed charges must be raised within 15 days of the invoice date."

/-- Canned answer of `answerContractQuestion` for liability questions. -/
def answerLiability : String :=
  "The contract limits liability in Section 9. Neither party is liable for indirect, consequential, or punitive damages. Each party" ++ aposS ++ "s total liability is capped at the amount paid under the agreement in the 12 months preceding the claim. These limitations don" ++ aposS ++ "t apply to breaches of confidentiality or intellectual property provisions."

/-- Fallback answer of `answerContractQuestion`. -/
def answerDefault : String :=
  "I" ++ aposS ++ "d need to analyze that specific aspect of the contract more carefully. The contract does contain various provisions covering termination, confidentiality, payment terms, intellectual property, and liability. Could you specify which section or topic you" ++ aposS ++ "re most interested in?"

/-- Embeds `answerContractQuestion(contractId, question)` from
`server/routes.ts`: keyword matching on the lowercased question selects a
canned answer; the contract id is not used by the implementation. -/
def answerContractQuestion (_contractId : Nat) (question : String) : String :=
  if containsKw question "terminate" || containsKw question "termination" then
    answerTermination
  else if containsKw question "confidential" || containsKw question "confidentiality" then
    answerConfidentiality
  else if containsKw question "payment" || containsKw question "invoice" then
    answerPayment
  else if containsKw question "liability" || containsKw question "damages" then
    answerLiability
  else
    answerDefault

/-- A user record. `riskScore` has no column in the users table; it models
the property that a JS object spread `{ ...user, riskScore }` adds at
runtime when the analyze route calls `updateUser` with a risk score. -/
structure User where
  id : Nat
  email : String
  password : String
  firstName : Option String
  lastName : Option String
  company : Option String
  planType : String
  apiKey : String
  createdAt : String
  riskScore : Option RiskLevel := none
deriving DecidableEq, Repr

/-- A contract record (`contracts` table in `shared/schema`). -/
structure Contract where
  id : Nat
  userId : Nat
  name : String
  fileType : String
  originalText : String
  contractType : Option String
  riskScore : RiskLevel
  uploadedAt : String
deriving DecidableEq, Repr

/-- An analysis record (`analyses` table): id plus the insert payload. -/
structure Analysis where
  id : Nat
  contractId : Nat
  summary : List String
  riskyClauseIndices : List Nat
  fullAnalysis : FullAnalysis
deriving DecidableEq, Repr

/-- Insert payload for `createAnalysis`. -/
structure InsertAnalysis where
  contractId : Nat
  summary : List String
  riskyClauseIndices : List Nat
  fullAnalysis : FullAnalysis
deriving DecidableEq, Repr

/-- A risky-clause record (`risky_clauses` table). -/
structure RiskyClause where
  id : Nat
  analysisId : Nat
  clauseIndex : Nat
  clauseText : String
  riskLevel : RiskLevel
  explanation : String
  suggestion : String
deriving DecidableEq, Repr

/-- Insert payload for `createRiskyClause`. -/
structure InsertRiskyClause where
  analysisId : Nat
  clauseIndex : Nat
  clauseText : String
  riskLevel : RiskLevel
  explanation : String
  suggestion : String
deriving DecidableEq, Repr

/-- A saved-clause record (`saved_clauses` table). -/
structure SavedClause where
  id : Nat
  userId : Nat
  clauseType : String
  tone : String
  content : String
  createdAt : String
deriving DecidableEq, Repr

/-- A conversation message; role is the string user or assistant. -/
structure Message where
  id : String
  role : String
  content : String
  timestamp : String
deriving DecidableEq, Repr

/-- A conversation record (`conversations` table). -/
structure Conversation where
  id : Nat
  userId : Nat
  contractId : Nat
  messages : List Message
  createdAt : String
  updatedAt : String
deriving DecidableEq, Repr

/-- The in-memory store backing `MemStorage` in `server/storage.ts`.
Each JS `Map` is modelled as a list in insertion order (JS maps iterate
in insertion order, and `Array.from(map.values())` exposes that order);
`set` on a fresh key appends, `set` on an existing key updates in place. -/
structure MemStorage where
  users : List User
  contracts : List Contract
  analyses : List Analysis
  riskyClauses : List RiskyClause
  savedClauses : List SavedClause
  conversations : List Conversation
  nextUserId : Nat
  nextContractId : Nat
  nextAnalysisId : Nat
  nextRiskyClauseId : Nat
  nextSavedClauseId : Nat
  nextConversationId : Nat
deriving DecidableEq, Repr

namespace MemStorage

/-- Embeds `MemStorage.getUser`: lookup by id. -/
def getUser (st : MemStorage) (id : Nat) : Option User :=
  st.users.find? (fun u => u.id == id)

/-- Embeds `MemStorage.updateUser` specialized to the one call the server
makes, `updateUser(id, { riskScore })`: if the user exists, merge the
risk-score property into it in place, otherwise change nothing. -/
def updateUser (st : MemStorage) (id : Nat) (rs : RiskLevel) : MemStorage :=
  match st.getUser id with
  | none => st
  | some _ =>
    { st with
      users := st.users.map (fun u =>
        if u.id == id then { u with riskScore := some rs } else u) }

/-- Embeds `MemStorage.getContract`: lookup by id. -/
def getContract (st : MemStorage) (id : Nat) : Option Contract :=
  st.contracts.find? (fun c => c.id == id)

/-- Embeds `MemStorage.getAnalysisByContractId`:
`Array.from(this.analyses.values()).find(a => a.contractId === contractId)`,
i.e. the first analysis in insertion order with that contract id. -/
def getAnalysisByContractId (st : MemStorage) (contractId : Nat) : Option Analysis :=
  st.analyses.find? (fun a => a.contractId == contractId)

/-- Embeds `MemStorage.createAnalysis`: assign the next id, store, return. -/
def createAnalysis (st : MemStorage) (ins : InsertAnalysis) : MemStorage × Analysis :=
  let analysis : Analysis :=
    { id := st.nextAnalysisId
    , contractId := ins.contractId
    , summary := ins.summary
    , riskyClauseIndices := ins.riskyClauseIndices
    , fullAnalysis := ins.fullAnalysis }
  ( { st with
      analyses := st.analyses ++ [analysis]
    , nextAnalysisId := st.nextAnalysisId + 1 }
  , analysis )

/-- Embeds `MemStorage.getRiskyClausesByAnalysisId`: filter by analysis id. -/
def getRiskyClausesByAnalysisId (st : MemStorage) (analysisId : Nat) : List RiskyClause :=
  st.riskyClauses.filter (fun c => c.analysisId == analysisId)

/-- Embeds `MemStorage.createRiskyClause`: assign the next id, store, return. -/
def createRiskyClause (st : MemStorage) (ins : InsertRiskyClause) : MemStorage × RiskyClause :=
  let clause : RiskyClause :=
    { id := st.nextRiskyClauseId
    , analysisId := ins.analysisId
    , clauseIndex := ins.clauseIndex
    , clauseText := ins.clauseText
    , riskLevel := ins.riskLevel
    , explanation := ins.explanation
    , suggestion := ins.suggestion }
  ( { st with
      riskyClauses := st.riskyClauses ++ [clause]
    , nextRiskyClauseId := st.nextRiskyClauseId + 1 }
  , clause )

/-- Embeds `MemStorage.getConversation`: lookup by id. -/
def getConversation (st : MemStorage) (id : Nat) : Option Conversation :=
  st.conversations.find? (fun c => c.id == id)

/-- Embeds `MemStorage.updateConversation`: if the conversation exists,
replace its message list and refresh `updatedAt` (the timestamp the source
takes from the clock is passed in as `ts`), storing in place. -/
def updateConversation (st : MemStorage) (id : Nat) (messages : List Message)
    (ts : String) : MemStorage × Option Conversation :=
  match st.getConversation id with
  | none => (st, none)
  | some conversation =>
    let updatedConversation := { conversation with messages := messages, updatedAt := ts }
    ( { st with
        conversations := st.conversations.map (fun c =>
          if c.id == id then updatedConversation else c) }
    , some updatedConversation )

end MemStorage

/-- One entry of the `mockRiskyClauses` array in the analyze route:
a risky-clause payload without an analysis id. -/
structure MockClauseInfo where
  clauseIndex : Nat
  clauseText : String
  riskLevel : RiskLevel
  explanation : String
  suggestion : String
deriving DecidableEq, Repr

/-- The fixed `mockRiskyClauses` array from `POST /api/analyze-contract`:
two candidate records, for clause indices 0 (high) and 3 (medium). -/
def mockRiskyClauses : List MockClauseInfo :=
  [ { clauseIndex := 0
    , clauseText := "Contractor agrees not to engage in any business activity competitive with Client" ++ aposS ++ "s business for a period of five (5) years in any geographic location where Client conducts business."
    , riskLevel := .high
    , explanation := "This non-compete clause is overly broad in both duration and geographic scope, making it potentially unenforceable in many jurisdictions."
    , suggestion := "Contractor agrees not to engage in substantially similar business activity competitive with Client" ++ aposS ++ "s core business for a period of one (1) year limited to regions where Contractor directly provided services to Client." }
  , { clauseIndex := 3
    , clauseText := "Contractor shall indemnify, defend, and hold harmless Client from any and all claims, damages, liabilities, costs, and expenses, including reasonable attorneys" ++ aposS ++ " fees arising from or relating to Contractor" ++ aposS ++ "s services."
    , riskLevel := .medium
    , explanation := "This indemnification clause is broad and doesn" ++ aposS ++ "t limit the contractor" ++ aposS ++ "s liability to third-party claims or direct damages."
    , suggestion := "Contractor shall indemnify, defend, and hold harmless Client from any third-party claims, damages, liabilities, costs, and expenses, including reasonable attorneys" ++ aposS ++ " fees arising directly from Contractor" ++ aposS ++ "s gross negligence or willful misconduct in performing the services." } ]

/-- Response of `POST /api/analyze-contract`: 400 when contract id or text
is missing/falsy, 404 when the contract does not exist, else 200 with the
created analysis. -/
inductive AnalyzeResp where
  | badRequest
  | contractNotFound
  | ok (analysis : Analysis)
deriving DecidableEq, Repr

/-- Embeds the `POST /api/analyze-contract` handler. `contractId = none`
models an absent or falsy body field; the JS guard `!text` is true exactly
for the empty string, so only `text = ""` is rejected. On success: run
`analyzeContract`, create the analysis record, call `updateUser` with the
contract id and the computed risk score, then store one risky-clause record
for each mock entry whose clause index is among the risky indices. -/
def analyzeContractRoute (st : MemStorage) (contractId : Option Nat)
    (text : String) (contractType : String) : MemStorage × AnalyzeResp :=
  match contractId with
  | none => (st, .badRequest)
  | some cid =>
    if text == "" then (st, .badRequest)
    else
      match st.getContract cid with
      | none => (st, .contractNotFound)
      | some contract =>
        let analysisResult := analyzeContract text contractType
        let created := st.createAnalysis
          { contractId := cid
          , summary := analysisResult.summary
          , riskyClauseIndices := analysisResult.riskyClauseIndices
          , fullAnalysis := analysisResult.fullAnalysis }
        let analysis := created.2
        let st2 := created.1.updateUser contract.id analysisResult.riskScore
        let st3 :=
          if analysisResult.riskyClauseIndices.length > 0 then
            mockRiskyClauses.foldl (fun s clauseInfo =>
              if analysisResult.riskyClauseIndices.contains clauseInfo.clauseIndex then
                (s.createRiskyClause
                  { analysisId := analysis.id
                  , clauseIndex := clauseInfo.clauseIndex
                  , clauseText := clauseInfo.clauseText
                  , riskLevel := clauseInfo.riskLevel
                  , explanation := clauseInfo.explanation
                  , suggestion := clauseInfo.suggestion }).1
              else s) st2
          else st2
        (st3, .ok analysis)

/-- Response of `POST /api/conversation/:id/message`: 400 when the question
is missing/falsy, 404 when the conversation does not exist, else 200 with
whatever `updateConversation` returned (its TS type is
`Conversation | undefined`). -/
inductive MessageResp where
  | badRequest
  | conversationNotFound
  | ok (conversation : Option Conversation)
deriving DecidableEq, Repr

/-- Embeds the `POST /api/conversation/:id/message` handler. The JS guard
`!question` is true exactly for the empty string. The random message ids
and clock readings of the source are passed in as `userMsgId`, `aiMsgId`,
`ts1`, `ts2` (message timestamps) and `tsU` (the `updatedAt` stamp taken
inside `updateConversation`). -/
def conversationMessageRoute (st : MemStorage) (conversationId : Nat)
    (question : String) (userMsgId aiMsgId ts1 ts2 tsU : String) :
    MemStorage × MessageResp :=
  if question == "" then (st, .badRequest)
  else
    match st.getConversation conversationId with
    | none => (st, .conversationNotFound)
    | some conversation =>
      let userMessage : Message :=
        { id := userMsgId, role := "user", content := question, timestamp := ts1 }
      let answer := answerContractQuestion conversation.contractId question
      let aiMessage : Message :=
        { id := aiMsgId, role := "assistant", content := answer, timestamp := ts2 }
      let updatedMessages := conversation.messages ++ [userMessage, aiMessage]
      let updated := st.updateConversation conversationId updatedMessages tsU
      (updated.1, .ok updated.2)

/-- Response of `POST /api/contract-qa`. -/
inductive QaResp where
  | badRequest
  | contractNotFound
  | ok (answer : String)
deriving DecidableEq, Repr

/-- Embeds the `POST /api/contract-qa` handler: validate, check the
contract exists, and return `answerContractQuestion` on the question with
no conversation state involved. Reads no mutable state beyond the lookup
and writes none. -/
def contractQaRoute (st : MemStorage) (contractId : Option Nat)
    (question : String) : QaResp :=
  match contractId with
  | none => .badRequest
  | some cid =>
    if question == "" then .badRequest
    else
      match st.getContract cid with
      | none => .contractNotFound
      | some _ => .ok (answerContractQuestion cid question)

/-- Projection of an analyze response onto its payload (summary, risky
clause indices, full analysis), ignoring the assigned identifier. -/
def AnalyzeResp.payload? : AnalyzeResp → Option (List String × List Nat × FullAnalysis)
  | .ok a => some (a.summary, a.riskyClauseIndices, a.fullAnalysis)
  | _ => none

/-- The scenario input text from the spec (§8), with the apostrophe in
the phrase 30 days notice assembled via `aposS`. -/
def scenarioText : String :=
  "1. Termination. Either party may terminate this Agreement upon 30 days" ++ aposS ++
  " notice. 2. Confidentiality. Each party shall protect Confidential Information."

/-- A concrete user for test states. -/
def testUser : User :=
  { id := 1, email := "demo@example.com", password := "pw", firstName := none
  , lastName := none, company := none, planType := "free", apiKey := "sc_k"
  , createdAt := "2023-08-01T00:00:00Z" }

/-- A concrete contract (id 1) for test states. -/
def testContract : Contract :=
  { id := 1, userId := 1, name := "Client Services Agreement", fileType := "pdf"
  , originalText := "sample", contractType := some "Service Contract"
  , riskScore := .low, uploadedAt := "2023-08-01T00:00:00Z" }

/-- A concrete conversation (id 1, contract 1) with one prior message pair. -/
def testConversation : Conversation :=
  { id := 1, userId := 1, contractId := 1
  , messages :=
      [ { id := "m1", role := "user", content := "Can this contract be terminated early?"
        , timestamp := "t1" }
      , { id := "m2", role := "assistant", content := answerTermination, timestamp := "t2" } ]
  , createdAt := "t0", updatedAt := "t2" }

/-- A concrete conversation (id 2, contract 1) with empty history. -/
def testConversationEmpty : Conversation :=
  { id := 2, userId := 1, contractId := 1, messages := []
  , createdAt := "t5", updatedAt := "t5" }

/-- A concrete store holding one user, one contract and two conversations. -/
def testState : MemStorage :=
  { users := [testUser], contracts := [testContract], analyses := []
  , riskyClauses := [], savedClauses := [], conversations := [testConversation, testConversationEmpty]
  , nextUserId := 2, nextContractId := 2, nextAnalysisId := 1
  , nextRiskyClauseId := 1, nextSavedClauseId := 1, nextConversationId := 3 }

/-- The analysis record created by analyzing the text `payment` against
`testState` (the medium-risk path). -/
def mediumRunAnalysis : Analysis :=
  { id := 1, contractId := 1, summary := mockSummary
  , riskyClauseIndices := [1], fullAnalysis := mockFullAnalysis .medium }

/-- The store after analyzing the text `payment` against `testState`:
the analysis is recorded, the user keyed by the contract id has the medium
risk score merged in, and no risky-clause records are stored. -/
def mediumRunState : MemStorage :=
  { users := [{ testUser with riskScore := some RiskLevel.medium }]
  , contracts := [testContract], analyses := [mediumRunAnalysis]
  , riskyClauses := [], savedClauses := []
  , conversations := [testConversation, testConversationEmpty]
  , nextUserId := 2, nextContractId := 2, nextAnalysisId := 2
  , nextRiskyClauseId := 1, nextSavedClauseId := 1, nextConversationId := 3 }

/-! Frame lemmas for the storage operations. -/

@[simp] lemma MemStorage.updateUser_contracts (st : MemStorage) (id : Nat) (rs : RiskLevel) :
    (st.updateUser id rs).contracts = st.contracts := by
  unfold MemStorage.updateUser; cases st.getUser id <;> rfl

@[simp] lemma MemStorage.updateUser_analyses (st : MemStorage) (id : Nat) (rs : RiskLevel) :
    (st.updateUser id rs).analyses = st.analyses := by
  unfold MemStorage.updateUser; cases st.getUser id <;> rfl

@[simp] lemma MemStorage.updateUser_riskyClauses (st : MemStorage) (id : Nat) (rs : RiskLevel) :
    (st.updateUser id rs).riskyClauses = st.riskyClauses := by
  unfold MemStorage.updateUser; cases st.getUser id <;> rfl

@[simp] lemma MemStorage.updateUser_savedClauses (st : MemStorage) (id : Nat) (rs : RiskLevel) :
    (st.updateUser id rs).savedClauses = st.savedClauses := by
  unfold MemStorage.updateUser; cases st.getUser id <;> rfl

@[simp] lemma MemStorage.updateUser_conversations (st : MemStorage) (id : Nat) (rs : RiskLevel) :
    (st.updateUser id rs).conversations = st.conversations := by
  unfold MemStorage.updateUser; cases st.getUser id <;> rfl

@[simp] lemma MemStorage.updateUser_nextAnalysisId (st : MemStorage) (id : Nat) (rs : RiskLevel) :
    (st.updateUser id rs).nextAnalysisId = st.nextAnalysisId := by
  unfold MemStorage.updateUser; cases st.getUser id <;> rfl

@[simp] lemma MemStorage.updateUser_nextRiskyClauseId (st : MemStorage) (id : Nat) (rs : RiskLevel) :
    (st.updateUser id rs).nextRiskyClauseId = st.nextRiskyClauseId := by
  unfold MemStorage.updateUser; cases st.getUser id <;> rfl

@[simp] lemma MemStorage.createRiskyClause_users (st : MemStorage) (ins : InsertRiskyClause) :
    (st.createRiskyClause ins).1.users = st.users := rfl

@[simp] lemma MemStorage.createRiskyClause_contracts (st : MemStorage) (ins : InsertRiskyClause) :
    (st.createRiskyClause ins).1.contracts = st.contracts := rfl

@[simp] lemma MemStorage.createRiskyClause_analyses (st : MemStorage) (ins : InsertRiskyClause) :
    (st.createRiskyClause ins).1.analyses = st.analyses := rfl

@[simp] lemma MemStorage.createRiskyClause_savedClauses (st : MemStorage) (ins : InsertRiskyClause) :
    (st.createRiskyClause ins).1.savedClauses = st.savedClauses := rfl

@[simp] lemma MemStorage.createRiskyClause_conversations (st : MemStorage) (ins : InsertRiskyClause) :
    (st.createRiskyClause ins).1.conversations = st.conversations := rfl

@[simp] lemma MemStorage.createRiskyClause_riskyClauses (st : MemStorage) (ins : InsertRiskyClause) :
    (st.createRiskyClause ins).1.riskyClauses =
      st.riskyClauses ++
        [ { id := st.nextRiskyClauseId, analysisId := ins.analysisId
          , clauseIndex := ins.clauseIndex, clauseText := ins.clauseText
          , riskLevel := ins.riskLevel, explanation := ins.explanation
          , suggestion := ins.suggestion } ] := rfl

/-- Updating the list entry selected by an id-keyed `find?` makes a later
`find?` with the same key return the replacement. -/
lemma find?_map_update (l : List Conversation) (id : Nat) (c c' : Conversation)
    (h : l.find? (fun x => x.id == id) = some c)
    (hid : (c'.id == id) = true) :
    (l.map (fun x => if x.id == id then c' else x)).find? (fun x => x.id == id) =
      some c' := by
  induction l with
  | nil => simp at h
  | cons x xs ih =>
    by_cases hx : (x.id == id) = true
    · simp only [List.map_cons, if_pos hx]
      exact List.find?_cons_of_pos (p := fun (y : Conversation) => y.id == id) _ hid
    · rw [List.find?_cons_of_neg (p := fun (y : Conversation) => y.id == id) xs hx] at h
      simp only [List.map_cons, if_neg hx]
      rw [List.find?_cons_of_neg (p := fun (y : Conversation) => y.id == id) _ hx]
      exact ih h

/-- Unfolding of a successful `POST /api/conversation/:id/message` run:
with a non-empty question and an existing conversation, the route appends
the user message and the generated assistant message and stores the
updated conversation in place. -/
lemma conversationMessageRoute_ok (st : MemStorage) (convId : Nat) (q : String)
    (conv : Conversation) (uid aid t1 t2 tu : String)
    (hq : q ≠ "") (hconv : st.getConversation convId = some conv) :
    conversationMessageRoute st convId q uid aid t1 t2 tu =
      (let conv' : Conversation :=
        { conv with
            messages := conv.messages ++
              [ { id := uid, role := "user", content := q, timestamp := t1 }
              , { id := aid, role := "assistant"
                , content := answerContractQuestion conv.contractId q, timestamp := t2 } ],
            updatedAt := tu }
       ( { st with
             conversations := st.conversations.map (fun c =>
               if c.id == convId then conv' else c) }
       , MessageResp.ok (some conv'))) := by
  have hq' : (q == "") = false := beq_eq_false_iff_ne.mpr hq
  simp only [conversationMessageRoute, MemStorage.updateConversation, hq', hconv,
    Bool.false_eq_true, if_false]

/-- `analyzeContract` has exactly three possible outcomes. -/
lemma analyzeContract_shape (text ct : String) :
    analyzeContract text ct = ⟨mockSummary, [0, 3], mockFullAnalysis .high, .high⟩ ∨
    analyzeContract text ct = ⟨mockSummary, [1], mockFullAnalysis .medium, .medium⟩ ∨
    analyzeContract text ct = ⟨mockSummary, [], mockFullAnalysis .low, .low⟩ := by
  simp only [analyzeContract]
  cases containsKw text "termination" || containsKw text "compete" <;>
    cases containsKw text "payment" || containsKw text "liability" <;> simp

/-- Unfolding of a successful `POST /api/analyze-contract` run: with a
present contract and non-empty text, the route creates the analysis,
updates the user keyed by the contract id, and stores the mock risky
clauses whose index is among the risky indices. -/
lemma analyzeContractRoute_ok (st : MemStorage) (cid : Nat) (text ct : String)
    (contract : Contract) (hc : st.getContract cid = some contract)
    (ht : text ≠ "") :
    analyzeContractRoute st (some cid) text ct =
      (let analysisResult := analyzeContract text ct
       let analysis : Analysis :=
         { id := st.nextAnalysisId, contractId := cid
         , summary := analysisResult.summary
         , riskyClauseIndices := analysisResult.riskyClauseIndices
         , fullAnalysis := analysisResult.fullAnalysis }
       let st1 : MemStorage :=
         { st with
             analyses := st.analyses ++ [analysis],
             nextAnalysisId := st.nextAnalysisId + 1 }
       let st2 := st1.updateUser contract.id analysisResult.riskScore
       let st3 :=
         if analysisResult.riskyClauseIndices.length > 0 then
           mockRiskyClauses.foldl (fun s clauseInfo =>
             if analysisResult.riskyClauseIndices.contains clauseInfo.clauseIndex then
               (s.createRiskyClause
                 { analysisId := analysis.id
                 , clauseIndex := clauseInfo.clauseIndex
                 , clauseText := clauseInfo.clauseText
                 , riskLevel := clauseInfo.riskLevel
                 , explanation := clauseInfo.explanation
                 , suggestion := clauseInfo.suggestion }).1
             else s) st2
         else st2
       (st3, AnalyzeResp.ok analysis)) := by
  have ht' : (text == "") = false := beq_eq_false_iff_ne.mpr ht
  simp only [analyzeContractRoute, ht', hc, MemStorage.createAnalysis, Bool.false_eq_true,
    if_false]

/-! Claim theorems. -/

/-- C1, counterexample: on the scenario input the code classifies the
document HIGH with risky indices [0, 3], not MEDIUM with risky indices
[0] as the claim states. -/
theorem c1_counterexample :
    ¬ ((analyzeContract scenarioText "").riskScore = RiskLevel.medium ∧
       (analyzeContract scenarioText "").riskyClauseIndices = [0]) := by decide

/-- C1 (amended): on the scenario input, `analyzeContract` (there is no
clause segmentation step) assigns document risk HIGH — the text contains
the termination keyword — and risky clause indices [0, 3]; the stored
Analysis carries the same level and indices. -/
theorem c1_scenario_analysis :
    (analyzeContract scenarioText "").riskScore = RiskLevel.high ∧
    (analyzeContract scenarioText "").fullAnalysis.riskLevel = RiskLevel.high ∧
    (analyzeContract scenarioText "").riskyClauseIndices = [0, 3] ∧
    ((analyzeContractRoute testState (some 1) scenarioText "").1.analyses.map
      (fun a => a.fullAnalysis.riskLevel)) = [RiskLevel.high] ∧
    ((analyzeContractRoute testState (some 1) scenarioText "").1.analyses.map
      Analysis.riskyClauseIndices) = [[0, 3]] := by decide

/-- C2, counterexample: a whitespace-only document text passes the JS
truthiness guard, is not rejected, and a (low-risk) Analysis record is
created for it. -/
theorem c2_counterexample :
    (analyzeContractRoute testState (some 1) "   " "").2 ≠ AnalyzeResp.badRequest ∧
    (analyzeContractRoute testState (some 1) "   " "").1.analyses.length =
      testState.analyses.length + 1 ∧
    ((analyzeContractRoute testState (some 1) "   " "").1.analyses.map
      (fun a => a.fullAnalysis.riskLevel)) = [RiskLevel.low] := by decide

/-- C2 (amended): only a missing contract id or an exactly-empty text is
rejected by the analyze route, as a 400 validation response with no
Analysis created; whitespace-only text is analyzed normally. -/
theorem c2_empty_text_rejected (st : MemStorage) (cid : Option Nat) (t ct : String) :
    analyzeContractRoute st cid "" ct = (st, AnalyzeResp.badRequest) ∧
    analyzeContractRoute st none t ct = (st, AnalyzeResp.badRequest) := by
  refine ⟨?_, rfl⟩
  cases cid with
  | none => rfl
  | some c => simp [analyzeContractRoute]

/-- C6, counterexample: a whitespace-only question passes the JS
truthiness guard: the ask route does not reject it and appends the
message pair (the stored conversation grows from 2 to 4 messages). -/
theorem c6_counterexample :
    (conversationMessageRoute testState 1 "   " "u1" "a1" "t3" "t4" "t5").2 ≠
      MessageResp.badRequest ∧
    ((conversationMessageRoute testState 1 "   " "u1" "a1" "t3" "t4" "t5").1.conversations.map
      (fun c => c.messages.length)) = [4, 0] := by decide

/-- C6 (amended): only an exactly-empty question is rejected by the ask
route, as a 400 validation response with no messages appended and the
store unchanged; a whitespace-only question is answered normally. -/
theorem c6_empty_question_rejected (st : MemStorage) (convId : Nat)
    (uid aid t1 t2 tu : String) :
    conversationMessageRoute st convId "" uid aid t1 t2 tu =
      (st, MessageResp.badRequest) := by
  simp [conversationMessageRoute]

/-- C7, counterexample: after creating a second analysis for contract 1,
both analyses are still stored (ids 1 and 2, so the prior one is not
deleted), but `getAnalysisByContractId` returns the first-created
analysis (id 1), not the most recently created one (id 2). -/
theorem c7_counterexample :
    ((testState.createAnalysis
        { contractId := 1, summary := mockSummary, riskyClauseIndices := [0, 3]
        , fullAnalysis := mockFullAnalysis .high }).1.createAnalysis
        { contractId := 1, summary := mockSummary, riskyClauseIndices := []
        , fullAnalysis := mockFullAnalysis .low }).2.id = 2 ∧
    ((((testState.createAnalysis
        { contractId := 1, summary := mockSummary, riskyClauseIndices := [0, 3]
        , fullAnalysis := mockFullAnalysis .high }).1.createAnalysis
        { contractId := 1, summary := mockSummary, riskyClauseIndices := []
        , fullAnalysis := mockFullAnalysis .low }).1.analyses.filter
      (fun a => a.contractId == 1)).map Analysis.id) = [1, 2] ∧
    (((testState.createAnalysis
        { contractId := 1, summary := mockSummary, riskyClauseIndices := [0, 3]
        , fullAnalysis := mockFullAnalysis .high }).1.createAnalysis
        { contractId := 1, summary := mockSummary, riskyClauseIndices := []
        , fullAnalysis := mockFullAnalysis .low }).1.getAnalysisByContractId 1).map
      Analysis.id = some 1 := by decide

/-- C7 (amended): creating a new analysis never deletes prior Analysis
records (the old list is preserved as a prefix), but the new analysis
does not supersede an existing one: for a contract that already has an
analysis, `getAnalysisByContractId` keeps returning the first-created
(earliest) analysis, unchanged by the new creation. -/
theorem c7_no_delete_no_supersede (st : MemStorage) (ins : InsertAnalysis)
    (cid : Nat) (a : Analysis)
    (hprev : st.getAnalysisByContractId cid = some a) :
    (st.createAnalysis ins).1.analyses = st.analyses ++ [(st.createAnalysis ins).2] ∧
    (st.createAnalysis ins).1.getAnalysisByContractId cid = some a := by
  refine ⟨rfl, ?_⟩
  unfold MemStorage.getAnalysisByContractId at hprev ⊢
  simp only [MemStorage.createAnalysis, List.find?_append, hprev, Option.or_some]

/-- C7 witness: the amended theorem applied to a store that already holds
an analysis (id 1) for contract 1. -/
theorem c7_no_delete_no_supersede_witness :
    ((testState.createAnalysis
        { contractId := 1, summary := mockSummary, riskyClauseIndices := [0, 3]
        , fullAnalysis := mockFullAnalysis .high }).1.getAnalysisByContractId 1 =
      some ({ id := 1, contractId := 1, summary := mockSummary
            , riskyClauseIndices := [0, 3], fullAnalysis := mockFullAnalysis .high } : Analysis)) ∧
    ((((testState.createAnalysis
        { contractId := 1, summary := mockSummary, riskyClauseIndices := [0, 3]
        , fullAnalysis := mockFullAnalysis .high }).1.createAnalysis
        { contractId := 1, summary := mockSummary, riskyClauseIndices := []
        , fullAnalysis := mockFullAnalysis .low }).1.analyses =
      (testState.createAnalysis
        { contractId := 1, summary := mockSummary, riskyClauseIndices := [0, 3]
        , fullAnalysis := mockFullAnalysis .high }).1.analyses ++
        [((testState.createAnalysis
        { contractId := 1, summary := mockSummary, riskyClauseIndices := [0, 3]
        , fullAnalysis := mockFullAnalysis .high }).1.createAnalysis
        { contractId := 1, summary := mockSummary, riskyClauseIndices := []
        , fullAnalysis := mockFullAnalysis .low }).2]) ∧
    (((testState.createAnalysis
        { contractId := 1, summary := mockSummary, riskyClauseIndices := [0, 3]
        , fullAnalysis := mockFullAnalysis .high }).1.createAnalysis
        { contractId := 1, summary := mockSummary, riskyClauseIndices := []
        , fullAnalysis := mockFullAnalysis .low }).1.getAnalysisByContractId 1 =
      some ({ id := 1, contractId := 1, summary := mockSummary
            , riskyClauseIndices := [0, 3], fullAnalysis := mockFullAnalysis .high } : Analysis))) :=
  ⟨by decide,
   c7_no_delete_no_supersede
     (testState.createAnalysis
        { contractId := 1, summary := mockSummary, riskyClauseIndices := [0, 3]
        , fullAnalysis := mockFullAnalysis .high }).1
     { contractId := 1, summary := mockSummary, riskyClauseIndices := []
     , fullAnalysis := mockFullAnalysis .low }
     1
     ({ id := 1, contractId := 1, summary := mockSummary
      , riskyClauseIndices := [0, 3], fullAnalysis := mockFullAnalysis .high } : Analysis)
     (by decide)⟩

/-- C5: a successful ask call appends exactly one user message (the
question) followed by one assistant message (the generated answer) to the
conversation, leaves all prior messages unchanged and in order, persists
the whole updated list in one `updateConversation` write (so no partial
pair is ever stored), and grows the message count by exactly 2. -/
theorem c5_ask_appends_pair (st : MemStorage) (convId : Nat) (q : String)
    (conv : Conversation) (uid aid t1 t2 tu : String)
    (hq : q ≠ "") (hconv : st.getConversation convId = some conv) :
    (conversationMessageRoute st convId q uid aid t1 t2 tu).2 =
      MessageResp.ok (some { conv with
        messages := conv.messages ++
          [ { id := uid, role := "user", content := q, timestamp := t1 }
          , { id := aid, role := "assistant"
            , content := answerContractQuestion conv.contractId q, timestamp := t2 } ],
        updatedAt := tu }) ∧
    (conversationMessageRoute st convId q uid aid t1 t2 tu).1.getConversation convId =
      some { conv with
        messages := conv.messages ++
          [ { id := uid, role := "user", content := q, timestamp := t1 }
          , { id := aid, role := "assistant"
            , content := answerContractQuestion conv.contractId q, timestamp := t2 } ],
        updatedAt := tu } ∧
    (conv.messages ++
      ([ { id := uid, role := "user", content := q, timestamp := t1 }
       , { id := aid, role := "assistant"
         , content := answerContractQuestion conv.contractId q, timestamp := t2 } ] :
        List Message)).length =
      conv.messages.length + 2 := by
  have hconv' : st.conversations.find? (fun c => c.id == convId) = some conv := hconv
  have hid : (conv.id == convId) = true :=
    List.find?_some (p := fun (y : Conversation) => y.id == convId) hconv'
  rw [conversationMessageRoute_ok st convId q conv uid aid t1 t2 tu hq hconv]
  refine ⟨rfl, ?_, by simp⟩
  exact find?_map_update st.conversations convId conv _ hconv' hid

/-- C5 witness: the theorem applied to the empty-history conversation
(id 2) of `testState` with a concrete question. -/
theorem c5_ask_appends_pair_witness :
    (("Is there a payment clause?" : String) ≠ "") ∧
    (testState.getConversation 2 = some testConversationEmpty) ∧
    ((conversationMessageRoute testState 2 "Is there a payment clause?" "u9" "a9" "s1" "s2" "s3").2 =
      MessageResp.ok (some { testConversationEmpty with
        messages := testConversationEmpty.messages ++
          [ { id := "u9", role := "user", content := "Is there a payment clause?", timestamp := "s1" }
          , { id := "a9", role := "assistant"
            , content := answerContractQuestion testConversationEmpty.contractId "Is there a payment clause?"
            , timestamp := "s2" } ],
        updatedAt := "s3" }) ∧
    (conversationMessageRoute testState 2 "Is there a payment clause?" "u9" "a9" "s1" "s2" "s3").1.getConversation 2 =
      some { testConversationEmpty with
        messages := testConversationEmpty.messages ++
          [ { id := "u9", role := "user", content := "Is there a payment clause?", timestamp := "s1" }
          , { id := "a9", role := "assistant"
            , content := answerContractQuestion testConversationEmpty.contractId "Is there a payment clause?"
            , timestamp := "s2" } ],
        updatedAt := "s3" } ∧
    (testConversationEmpty.messages ++
      ([ { id := "u9", role := "user", content := "Is there a payment clause?", timestamp := "s1" }
       , { id := "a9", role := "assistant"
         , content := answerContractQuestion testConversationEmpty.contractId "Is there a payment clause?"
         , timestamp := "s2" } ] : List Message)).length = testConversationEmpty.messages.length + 2) :=
  ⟨by decide, by decide,
   c5_ask_appends_pair testState 2 "Is there a payment clause?" testConversationEmpty
     "u9" "a9" "s1" "s2" "s3" (by decide) (by decide)⟩

/-- C8: the direct (unsaved) Q&A route returns exactly the answer text
that the ask route appends as the assistant message for the same document
and question on a conversation with empty history: whenever direct Q&A
answers `ans`, the ask route produces the message pair whose assistant
content is that same `ans`. -/
theorem c8_direct_qa_matches_ask (st : MemStorage) (cid convId : Nat) (q ans : String)
    (conv : Conversation) (contract : Contract) (uid aid t1 t2 tu : String)
    (hq : q ≠ "")
    (hcontract : st.getContract cid = some contract)
    (hconv : st.getConversation convId = some conv)
    (hbind : conv.contractId = cid)
    (hhist : conv.messages = [])
    (hqa : contractQaRoute st (some cid) q = QaResp.ok ans) :
    (conversationMessageRoute st convId q uid aid t1 t2 tu).2 =
      MessageResp.ok (some { conv with
        messages := [ { id := uid, role := "user", content := q, timestamp := t1 }
                    , { id := aid, role := "assistant", content := ans, timestamp := t2 } ],
        updatedAt := tu }) := by
  have hq' : (q == "") = false := beq_eq_false_iff_ne.mpr hq
  simp only [contractQaRoute, hq', hcontract, Bool.false_eq_true, if_false] at hqa
  injection hqa with hans
  rw [conversationMessageRoute_ok st convId q conv uid aid t1 t2 tu hq hconv]
  simp [hhist, hbind, hans]

/-- C8 witness: the theorem applied to `testState`, contract 1, the
empty-history conversation (id 2) and the question Can they terminate
early?, whose direct answer is the canned termination answer. -/
theorem c8_direct_qa_matches_ask_witness :
    (("Can they terminate early?" : String) ≠ "") ∧
    (testState.getContract 1 = some testContract) ∧
    (testState.getConversation 2 = some testConversationEmpty) ∧
    (testConversationEmpty.contractId = 1) ∧
    (testConversationEmpty.messages = []) ∧
    (contractQaRoute testState (some 1) "Can they terminate early?" = QaResp.ok answerTermination) ∧
    ((conversationMessageRoute testState 2 "Can they terminate early?" "u7" "a7" "r1" "r2" "r3").2 =
      MessageResp.ok (some { testConversationEmpty with
        messages := [ { id := "u7", role := "user", content := "Can they terminate early?", timestamp := "r1" }
                    , { id := "a7", role := "assistant", content := answerTermination, timestamp := "r2" } ],
        updatedAt := "r3" })) :=
  ⟨by decide, by decide, by decide, by decide, by decide, by decide,
   c8_direct_qa_matches_ask testState 1 2 "Can they terminate early?" answerTermination
     testConversationEmpty testContract "u7" "a7" "r1" "r2" "r3"
     (by decide) (by decide) (by decide) (by decide) (by decide) (by decide)⟩

/-- Inversion for a successful analyze run: the guards must have passed. -/
lemma analyzeContractRoute_ok_inv (st st' : MemStorage) (cid : Option Nat)
    (t ct : String) (a : Analysis)
    (hrun : analyzeContractRoute st cid t ct = (st', AnalyzeResp.ok a)) :
    ∃ c contract, cid = some c ∧ t ≠ "" ∧ st.getContract c = some contract := by
  cases cid with
  | none => simp [analyzeContractRoute] at hrun
  | some c =>
    by_cases ht : t = ""
    · subst ht
      simp [analyzeContractRoute] at hrun
    · cases hc : st.getContract c with
      | none =>
        have ht' : (t == "") = false := beq_eq_false_iff_ne.mpr ht
        simp [analyzeContractRoute, ht', hc] at hrun
      | some contract => exact ⟨c, contract, rfl, ht, hc⟩

/-- C3, counterexample: analyzing the text payment classifies the document
MEDIUM, yet stores no ClauseAssessment records for the analysis, so the
maximum stored level (LOW over the empty set) differs from the
document-level risk. -/
theorem c3_counterexample :
    ((analyzeContractRoute testState (some 1) "payment" "").1.analyses.map
      (fun a => (a.id, a.fullAnalysis.riskLevel))) = [(1, RiskLevel.medium)] ∧
    (analyzeContractRoute testState (some 1) "payment" "").1.getRiskyClausesByAnalysisId 1 = [] ∧
    maxRisk (((analyzeContractRoute testState (some 1) "payment" "").1.getRiskyClausesByAnalysisId 1).map
      RiskyClause.riskLevel) = RiskLevel.low ∧
    RiskLevel.medium ≠ RiskLevel.low := by decide

/-- C3 (amended): for every successful analyze run whose analysis id is
fresh, the document-level risk equals the maximum stored assessment level
whenever any assessment records are stored (the high-risk path); when
none are stored the document level is LOW or MEDIUM — so the worst-of
equation holds except on the medium path, where the set is empty but the
document level is MEDIUM. -/
theorem c3_doc_level_vs_assessments (st st' : MemStorage) (cid : Option Nat)
    (t ct : String) (a : Analysis)
    (hrun : analyzeContractRoute st cid t ct = (st', AnalyzeResp.ok a))
    (hfresh : st.getRiskyClausesByAnalysisId st.nextAnalysisId = []) :
    (st'.getRiskyClausesByAnalysisId a.id ≠ [] →
      a.fullAnalysis.riskLevel =
        maxRisk ((st'.getRiskyClausesByAnalysisId a.id).map RiskyClause.riskLevel)) ∧
    (st'.getRiskyClausesByAnalysisId a.id = [] →
      a.fullAnalysis.riskLevel ≠ RiskLevel.high) := by
  obtain ⟨c, contract, hcid, ht, hc⟩ := analyzeContractRoute_ok_inv st st' cid t ct a hrun
  subst hcid
  rw [analyzeContractRoute_ok st c t ct contract hc ht] at hrun
  unfold MemStorage.getRiskyClausesByAnalysisId at hfresh ⊢
  rcases analyzeContract_shape t ct with hsh | hsh | hsh <;>
    simp only [hsh, mockRiskyClauses] at hrun <;>
    simp only [Prod.mk.injEq, AnalyzeResp.ok.injEq] at hrun <;>
    obtain ⟨hS, hA⟩ := hrun <;>
    subst hS <;> subst hA <;>
    simp [List.filter_append, hfresh, mockFullAnalysis,
      maxRisk, RiskLevel.maxL, RiskLevel.toNat]

/-- C3 witness: the amended theorem applied to the medium-path run of the
analyze route on `testState` with the text payment. -/
theorem c3_doc_level_vs_assessments_witness :
    (analyzeContractRoute testState (some 1) "payment" "" =
      (mediumRunState, AnalyzeResp.ok mediumRunAnalysis)) ∧
    (testState.getRiskyClausesByAnalysisId testState.nextAnalysisId = []) ∧
    ((mediumRunState.getRiskyClausesByAnalysisId mediumRunAnalysis.id ≠ [] →
      mediumRunAnalysis.fullAnalysis.riskLevel =
        maxRisk ((mediumRunState.getRiskyClausesByAnalysisId mediumRunAnalysis.id).map
          RiskyClause.riskLevel)) ∧
     (mediumRunState.getRiskyClausesByAnalysisId mediumRunAnalysis.id = [] →
      mediumRunAnalysis.fullAnalysis.riskLevel ≠ RiskLevel.high)) :=
  ⟨by decide, by decide,
   c3_doc_level_vs_assessments testState mediumRunState (some 1) "payment" "" mediumRunAnalysis
     (by decide) (by decide)⟩

/-- C4, counterexample: the medium-path run lists clause index 1 among the
risky clause indices of the created analysis but stores zero RiskyClause
records with that (analysisId, clauseIndex) pair, not exactly one. -/
theorem c4_counterexample :
    ((analyzeContractRoute testState (some 1) "payment" "").1.analyses.map
      Analysis.riskyClauseIndices) = [[1]] ∧
    (((analyzeContractRoute testState (some 1) "payment" "").1.getRiskyClausesByAnalysisId 1).filter
      (fun rc => rc.clauseIndex == 1)).length = 0 := by decide

/-- C4 (amended): for every successful analyze run whose analysis id is
fresh and every clause index listed in the created riskyClauseIndices, at
most one RiskyClause record with that (analysisId, clauseIndex) pair is
stored, and exactly one precisely when the index is 0 or 3 (the high-risk
path); on the medium path the listed index 1 has no stored record. -/
theorem c4_at_most_one_assessment (st st' : MemStorage) (cid : Option Nat)
    (t ct : String) (a : Analysis)
    (hrun : analyzeContractRoute st cid t ct = (st', AnalyzeResp.ok a))
    (hfresh : st.getRiskyClausesByAnalysisId st.nextAnalysisId = []) :
    ∀ idx ∈ a.riskyClauseIndices,
      ((st'.getRiskyClausesByAnalysisId a.id).filter
        (fun rc => rc.clauseIndex == idx)).length ≤ 1 ∧
      (((st'.getRiskyClausesByAnalysisId a.id).filter
        (fun rc => rc.clauseIndex == idx)).length = 1 ↔ (idx = 0 ∨ idx = 3)) := by
  obtain ⟨c, contract, hcid, ht, hc⟩ := analyzeContractRoute_ok_inv st st' cid t ct a hrun
  subst hcid
  rw [analyzeContractRoute_ok st c t ct contract hc ht] at hrun
  unfold MemStorage.getRiskyClausesByAnalysisId at hfresh ⊢
  rcases analyzeContract_shape t ct with hsh | hsh | hsh
  all_goals simp only [hsh, mockRiskyClauses] at hrun
  all_goals simp only [Prod.mk.injEq, AnalyzeResp.ok.injEq] at hrun
  all_goals obtain ⟨hS, hA⟩ := hrun
  all_goals subst hS
  all_goals subst hA
  all_goals intro idx hidx
  all_goals simp only [List.mem_cons, List.not_mem_nil, or_false] at hidx
  · rcases hidx with h | h <;> subst h <;>
      simp [List.filter_append, hfresh]
  · subst hidx
    simp [List.filter_append, hfresh]

/-- C4 witness: the amended theorem applied to the medium-path run and the
listed clause index 1. -/
theorem c4_at_most_one_assessment_witness :
    (analyzeContractRoute testState (some 1) "payment" "" =
      (mediumRunState, AnalyzeResp.ok mediumRunAnalysis)) ∧
    (testState.getRiskyClausesByAnalysisId testState.nextAnalysisId = []) ∧
    ((1 : Nat) ∈ mediumRunAnalysis.riskyClauseIndices) ∧
    (((mediumRunState.getRiskyClausesByAnalysisId mediumRunAnalysis.id).filter
        (fun rc => rc.clauseIndex == 1)).length ≤ 1 ∧
     (((mediumRunState.getRiskyClausesByAnalysisId mediumRunAnalysis.id).filter
        (fun rc => rc.clauseIndex == 1)).length = 1 ↔ ((1 : Nat) = 0 ∨ (1 : Nat) = 3))) :=
  ⟨by decide, by decide, by decide,
   c4_at_most_one_assessment testState mediumRunState (some 1) "payment" "" mediumRunAnalysis
     (by decide) (by decide) 1 (by decide)⟩

/-- C9: the analysis pipeline is deterministic and idempotent — after a
successful analyze run, running the route again with the same text and
contract type succeeds and produces an analysis with the identical
payload (summary, risky clause indices, full analysis), differing only in
the assigned identifier. -/
theorem c9_reanalysis_same_payload (st st1 : MemStorage) (cid : Option Nat)
    (t ct : String) (a1 : Analysis)
    (h1 : analyzeContractRoute st cid t ct = (st1, AnalyzeResp.ok a1)) :
    (analyzeContractRoute st1 cid t ct).2.payload? =
      some (a1.summary, a1.riskyClauseIndices, a1.fullAnalysis) := by
  obtain ⟨c, contract, hcid, ht, hc⟩ := analyzeContractRoute_ok_inv st st1 cid t ct a1 h1
  subst hcid
  rw [analyzeContractRoute_ok st c t ct contract hc ht] at h1
  rcases analyzeContract_shape t ct with hsh | hsh | hsh
  all_goals simp only [hsh, mockRiskyClauses] at h1
  all_goals simp only [Prod.mk.injEq, AnalyzeResp.ok.injEq] at h1
  all_goals obtain ⟨hS, hA⟩ := h1
  all_goals subst hS
  all_goals subst hA
  all_goals
    rw [analyzeContractRoute_ok _ c t ct contract
      (by simp [MemStorage.getContract] at hc ⊢; exact hc) ht]
  all_goals simp [hsh, AnalyzeResp.payload?]

/-- C9 witness: the theorem applied to the medium-path run on `testState`. -/
theorem c9_reanalysis_same_payload_witness :
    (analyzeContractRoute testState (some 1) "payment" "" =
      (mediumRunState, AnalyzeResp.ok mediumRunAnalysis)) ∧
    (analyzeContractRoute mediumRunState (some 1) "payment" "").2.payload? =
      some (mediumRunAnalysis.summary, mediumRunAnalysis.riskyClauseIndices,
        mediumRunAnalysis.fullAnalysis) :=
  ⟨by decide,
   c9_reanalysis_same_payload testState mediumRunState (some 1) "payment" "" mediumRunAnalysis
     (by decide)⟩

/-- C10: a successful analyze run leaves the stored contracts (including
the analyzed contract and its riskScore column), saved clauses and
conversations unchanged; instead the route calls `updateUser` keyed by
the contract id, so when a user with that id exists it gets the computed
risk score merged in as a property, and when none exists the users are
untouched too. -/
theorem c10_updates_user_not_contract (st st' : MemStorage) (cid : Nat)
    (t ct : String) (a : Analysis) (contract : Contract)
    (hc : st.getContract cid = some contract)
    (hrun : analyzeContractRoute st (some cid) t ct = (st', AnalyzeResp.ok a)) :
    st'.contracts = st.contracts ∧
    st'.savedClauses = st.savedClauses ∧
    st'.conversations = st.conversations ∧
    (st.getUser contract.id = none → st'.users = st.users) ∧
    (∀ u, st.getUser contract.id = some u →
      st'.users = st.users.map (fun x =>
        if x.id == contract.id then
          { x with riskScore := some (analyzeContract t ct).riskScore }
        else x)) := by
  obtain ⟨c, contract2, hcid, ht, hc2⟩ := analyzeContractRoute_ok_inv st st' (some cid) t ct a hrun
  have hcc : c = cid := by injection hcid with h; exact h.symm
  subst hcc
  rw [analyzeContractRoute_ok st c t ct contract hc ht] at hrun
  rcases analyzeContract_shape t ct with hsh | hsh | hsh
  all_goals simp only [hsh, mockRiskyClauses] at hrun
  all_goals simp only [Prod.mk.injEq, AnalyzeResp.ok.injEq] at hrun
  all_goals obtain ⟨hS, hA⟩ := hrun
  all_goals subst hS
  all_goals subst hA
  all_goals refine ⟨by simp, by simp, by simp, ?_, ?_⟩
  all_goals first
    | (intro h
       simp only [MemStorage.getUser] at h
       simp [MemStorage.updateUser, MemStorage.getUser, h])
    | (intro u hu
       simp only [MemStorage.getUser] at hu
       simp [MemStorage.updateUser, MemStorage.getUser, hu, hsh])

/-- C10 witness: the theorem applied to the medium-path run on
`testState`, where the user with id equal to the contract id exists and
receives the medium risk score. -/
theorem c10_updates_user_not_contract_witness :
    (testState.getContract 1 = some testContract) ∧
    (analyzeContractRoute testState (some 1) "payment" "" =
      (mediumRunState, AnalyzeResp.ok mediumRunAnalysis)) ∧
    (testState.getUser testContract.id = some testUser) ∧
    (mediumRunState.contracts = testState.contracts) ∧
    (mediumRunState.users = testState.users.map (fun x =>
      if x.id == testContract.id then
        { x with riskScore := some (analyzeContract "payment" "").riskScore }
      else x)) :=
  ⟨by decide, by decide, by decide,
   (c10_updates_user_not_contract testState mediumRunState 1 "payment" ""
      mediumRunAnalysis testContract (by decide) (by decide)).1,
   (c10_updates_user_not_contract testState mediumRunState 1 "payment" ""
      mediumRunAnalysis testContract (by decide) (by decide)).2.2.2.2 testUser (by decide)⟩
